import Mathlib

/-!
Verification of the FLIP C-API boundary adapter (`flip_capi.cpp` /
`flip_capi.h`).

The adapter is embedded shallowly.  Floating-point values are opaque data to
the adapter (it never performs arithmetic on them, only copies them), so they
are modelled by a type parameter `F`; witnesses instantiate `F := Int`.  The
FLIP Evaluation Engine (`FLIP.h`: `FLIP::Parameters`, `FLIP::evaluate`,
`FLIP::calculatePPD`) is not part of this repository's sources; it is modelled
abstractly as an `Engine` record, with a concrete model instance built from
the spec's description of its observable contract.

Caller-visible mutable memory (the two input image buffers, the `mean_error`
slot and the `error_map` slot) is modelled explicitly by `CallerMemory`;
`flip_evaluate` maps a pre-call memory to a post-call memory, so that
"left unmodified" claims are statements about the function, not conventions.
A null pointer is `Option.none`; a non-null slot holding `v` is `some v`.
-/

/-- C-compatible parameter record, translated from `FlipParameters` in
`flip_capi.h`.  `tonemapper` is a nullable C string: `none` models a null
`const char*`, `some s` a non-null string (possibly empty). -/
structure FlipParameters (F : Type) where
  ppd : F
  start_exposure : F
  stop_exposure : F
  num_exposures : Int
  tonemapper : Option String
deriving Repr, DecidableEq

/-- Modelled from the spec: the Engine's internal parameter representation
(`FLIP::Parameters` of `FLIP.h`, which is outside this repository's sources).
Field names follow the source assignments in `flip_capi.cpp`
(`params.PPD`, `params.startExposure`, `params.stopExposure`,
`params.numExposures`, `params.tonemapper`); the Engine's `tonemapper` is a
non-nullable string whose default names the default tone mapper. -/
structure EngineParameters (F : Type) where
  PPD : F
  startExposure : F
  stopExposure : F
  numExposures : Int
  tonemapper : String
deriving Repr, DecidableEq

/-- Modelled from the spec: the Evaluation Engine, an external collaborator.
`defaultParams` is the default-constructed `FLIP::Parameters`;
`calculatePPD` is `FLIP::calculatePPD` (a pure function of its three inputs,
per the spec); `evaluate` is the pointer-based `FLIP::evaluate`: it reads the
two input buffers, receives width, height, the HDR flag, the translated
parameters, the colour-map and mean-requested flags and the incoming value of
the mean accumulator, and returns the final accumulator value together with
the freshly allocated error-map buffer. -/
structure Engine (F : Type) where
  defaultParams : EngineParameters F
  calculatePPD : F → F → F → F
  evaluate : List F → List F → Int → Int → Bool → EngineParameters F →
      Bool → Bool → F → F × List F

/-- Caller-visible mutable memory for one `flip_evaluate` call: the two
caller-owned input buffers, the nullable `mean_error` scalar slot, and the
`error_map` out-slot (holding the buffer the slot points at, if any). -/
structure CallerMemory (F : Type) where
  reference : List F
  test : List F
  mean_slot : Option F
  error_slot : Option (List F)
deriving Repr, DecidableEq

/-- Parameter-translation block of `flip_evaluate` (`flip_capi.cpp`):
`FLIP::Parameters params;` default-constructs the Engine's defaults; if the
caller's record is non-null its `ppd`, `start_exposure`, `stop_exposure` and
`num_exposures` fields overwrite the corresponding Engine fields, and its
`tonemapper` overwrites the Engine's only when the C string is non-null. -/
def translateParams {F : Type} (E : Engine F)
    (parameters : Option (FlipParameters F)) : EngineParameters F :=
  match parameters with
  | none => E.defaultParams
  | some p =>
    { PPD := p.ppd
      startExposure := p.start_exposure
      stopExposure := p.stop_exposure
      numExposures := p.num_exposures
      tonemapper :=
        match p.tonemapper with
        | some t => t
        | none => E.defaultParams.tonemapper }

/-- `flip_calculate_ppd` from `flip_capi.cpp`: returns
`FLIP::calculatePPD(viewing_distance, resolution_x, monitor_width)`.
The function is threaded through an arbitrary ambient state `s` so that
absence of side effects is a statement, not a convention. -/
def flip_calculate_ppd {F σ : Type} (E : Engine F)
    (viewing_distance resolution_x monitor_width : F) (s : σ) : F × σ :=
  (E.calculatePPD viewing_distance resolution_x monitor_width, s)

/-- `flip_evaluate` from `flip_capi.cpp`: translates the nullable parameter
record, calls `FLIP::evaluate` with a mean accumulator initialised to `0.0f`,
lets the Engine write the error-map slot, and copies the accumulator into
`*mean_error` only when `compute_mean_error` is truthy and `mean_error` is
non-null. -/
def flip_evaluate {F : Type} [Zero F] (E : Engine F)
    (width height : Int) (use_hdr : Int)
    (parameters : Option (FlipParameters F))
    (apply_magma_map compute_mean_error : Int)
    (mem : CallerMemory F) : CallerMemory F :=
  let params := translateParams E parameters
  let r := E.evaluate mem.reference mem.test width height
      (use_hdr != 0) params (apply_magma_map != 0) (compute_mean_error != 0)
      (0 : F)
  { mem with
    error_slot := some r.2
    mean_slot :=
      if (compute_mean_error != 0) && mem.mean_slot.isSome
      then some r.1 else mem.mean_slot }

/-- `flip_free` from `flip_capi.cpp`: `if (ptr) delete[] ...`.  The heap is
modelled as the list of live allocation base addresses; `delete[]` removes
the address of the block; a null argument leaves the heap untouched. -/
def flip_free (ptr : Option Nat) (heap : List Nat) : List Nat :=
  match ptr with
  | some p => heap.erase p
  | none => heap

/-- Modelled from the spec: the Engine's output-buffer sizing contract
(spec section 3, ErrorMap): the buffer produced by `FLIP::evaluate` has
`width * height` samples in grayscale mode and `3 * width * height` samples
in colour-mapped mode. -/
def Engine.SizesCorrect {F : Type} (E : Engine F) : Prop :=
  ∀ ref test (w h : Int) hdr params cmap cmean acc,
    (E.evaluate ref test w h hdr params cmap cmean acc).2.length =
      (if cmap then 3 else 1) * (w.toNat * h.toNat)

/-- Modelled from the spec: a concrete model instance of the Evaluation
Engine over `F := Int`, used to instantiate the universally quantified
theorems at concrete inputs.  Its defaults follow the documented defaults
(PPD near 67, infinite-sentinel exposures rendered here as the documented
"auto" role, `num_exposures = -1` for auto, tonemapper `"aces"`); its
`evaluate` honours the spec's sizing contract and returns mean `0` when the
mean is requested. -/
def specEngine : Engine Int where
  defaultParams :=
    { PPD := 67, startExposure := 0, stopExposure := 0,
      numExposures := -1, tonemapper := "aces" }
  calculatePPD := fun v rx mw => v * rx * mw
  evaluate := fun _ _ w h _ _ cmap cmean acc =>
    (if cmean then 0 else acc,
     List.replicate ((if cmap then 3 else 1) * (w.toNat * h.toNat)) 0)

/-- The model Engine satisfies the sizing contract. -/
theorem specEngine_sizes : specEngine.SizesCorrect := by
  intro ref test w h hdr params cmap cmean acc
  simp [specEngine, Engine.SizesCorrect]

/-- C1: `flip_evaluate` writes the Engine's computed mean into the
`mean_error` slot exactly when `compute_mean_error` is truthy and the slot is
non-null; in every other case (mean not requested, or destination null) the
slot's contents after the call equal its contents before the call. -/
theorem flip_evaluate_mean_slot {F : Type} [Zero F] (E : Engine F)
    (width height use_hdr : Int) (parameters : Option (FlipParameters F))
    (apply_magma_map compute_mean_error : Int) (mem : CallerMemory F) :
    (flip_evaluate E width height use_hdr parameters apply_magma_map
        compute_mean_error mem).mean_slot =
      if compute_mean_error ≠ 0 ∧ mem.mean_slot.isSome then
        some (E.evaluate mem.reference mem.test width height (use_hdr != 0)
          (translateParams E parameters) (apply_magma_map != 0)
          (compute_mean_error != 0) (0 : F)).1
      else mem.mean_slot := by
  by_cases hc : compute_mean_error = 0 <;>
    cases hm : mem.mean_slot <;>
      simp [flip_evaluate, hc, hm]

/-- C2: calling `flip_evaluate` with a null parameter record produces a
result identical, for every input memory and flag combination, to calling it
with an explicit record whose every field holds the Engine's default value:
both translate to the Engine's default-constructed parameter set. -/
theorem flip_evaluate_null_params_default {F : Type} [Zero F] (E : Engine F)
    (width height use_hdr apply_magma_map compute_mean_error : Int)
    (mem : CallerMemory F) :
    flip_evaluate E width height use_hdr none apply_magma_map
        compute_mean_error mem =
      flip_evaluate E width height use_hdr
        (some { ppd := E.defaultParams.PPD
                start_exposure := E.defaultParams.startExposure
                stop_exposure := E.defaultParams.stopExposure
                num_exposures := E.defaultParams.numExposures
                tonemapper := some E.defaultParams.tonemapper })
        apply_magma_map compute_mean_error mem := rfl

/-- C3 counterexample: a non-null record whose tonemapper is the non-null
empty string does NOT leave the Engine's default in effect — the empty
string is copied into the Engine's parameter, contradicting the claim that
an empty tonemapper field never overrides the Engine's default. -/
theorem translateParams_empty_tonemapper_copied :
    ¬ ((translateParams specEngine
          (some { ppd := 0, start_exposure := 0, stop_exposure := 0,
                  num_exposures := -1, tonemapper := some "" })).tonemapper
        = specEngine.defaultParams.tonemapper) := by
  decide

/-- C3 (amended): for every non-null record whose tonemapper field is absent
(a null C string), `flip_evaluate` leaves the Engine's own default tonemapper
selection in effect; only a null tonemapper is guaranteed not to override. -/
theorem translateParams_null_tonemapper_default {F : Type} (E : Engine F)
    (p : FlipParameters F) (h : p.tonemapper = none) :
    (translateParams E (some p)).tonemapper = E.defaultParams.tonemapper := by
  simp [translateParams, h]

/-- Witness for C3 (amended) at a concrete record with a null tonemapper. -/
theorem translateParams_null_tonemapper_default_witness :
    ({ ppd := 1, start_exposure := 2, stop_exposure := 3, num_exposures := 4,
       tonemapper := none } : FlipParameters Int).tonemapper = none ∧
    (translateParams specEngine
        (some { ppd := 1, start_exposure := 2, stop_exposure := 3,
                num_exposures := 4, tonemapper := none })).tonemapper
      = specEngine.defaultParams.tonemapper :=
  ⟨rfl, translateParams_null_tonemapper_default specEngine _ rfl⟩

/-- C4: for every non-null record, the `ppd`, `start_exposure`,
`stop_exposure` and `num_exposures` fields are forwarded into the Engine's
parameter representation unchanged — no clamping, validation or
reinterpretation of any value. -/
theorem translateParams_forwards_fields {F : Type} (E : Engine F)
    (p : FlipParameters F) :
    (translateParams E (some p)).PPD = p.ppd ∧
    (translateParams E (some p)).startExposure = p.start_exposure ∧
    (translateParams E (some p)).stopExposure = p.stop_exposure ∧
    (translateParams E (some p)).numExposures = p.num_exposures :=
  ⟨rfl, rfl, rfl, rfl⟩

/-- C5: `flip_free` on a null argument is a no-op for any number of repeated
calls — the heap of live allocations is left exactly as it was. -/
theorem flip_free_null_noop (heap : List Nat) (n : Nat) :
    (flip_free none)^[n] heap = heap := by
  induction n with
  | zero => rfl
  | succ k ih => simp [Function.iterate_succ_apply', ih, flip_free]

/-- C6: after `flip_evaluate` returns, the buffer in the error-map slot has
length `width * height` when `apply_magma_map` is zero and
`3 * width * height` when it is non-zero — a pure function of
(width, height, applyColorMap) — for every Engine honouring the spec's
sizing contract. -/
theorem flip_evaluate_error_map_length {F : Type} [Zero F] (E : Engine F)
    (hE : E.SizesCorrect) (w h u : Int) (ps : Option (FlipParameters F))
    (a c : Int) (mem : CallerMemory F) :
    ((flip_evaluate E w h u ps a c mem).error_slot).map List.length =
      some ((if a ≠ 0 then 3 else 1) * (w.toNat * h.toNat)) := by
  have hlen := hE mem.reference mem.test w h (u != 0) (translateParams E ps)
      (a != 0) (c != 0) (0 : F)
  simp only [flip_evaluate, Option.map_some']
  rw [hlen]
  by_cases ha : a = 0 <;> simp [ha]

/-- Witness for C6 at a concrete Engine, dimensions and flags. -/
theorem flip_evaluate_error_map_length_witness :
    specEngine.SizesCorrect ∧
    ((flip_evaluate specEngine 2 3 0 none 1 0
        { reference := [], test := [], mean_slot := none,
          error_slot := none }).error_slot).map List.length
      = some ((if (1 : Int) ≠ 0 then 3 else 1)
                * ((2 : Int).toNat * (3 : Int).toNat)) :=
  ⟨specEngine_sizes,
   flip_evaluate_error_map_length specEngine specEngine_sizes 2 3 0 none 1 0
     { reference := [], test := [], mean_slot := none, error_slot := none }⟩

/-- C7: `flip_calculate_ppd` is pure — for fixed inputs a repeated call
returns an identical result, and the ambient state is left unchanged. -/
theorem flip_calculate_ppd_pure {F σ : Type} (E : Engine F)
    (v rx mw : F) (s : σ) :
    (flip_calculate_ppd E v rx mw
        ((flip_calculate_ppd E v rx mw s).2)).1
      = (flip_calculate_ppd E v rx mw s).1 ∧
    (flip_calculate_ppd E v rx mw s).2 = s :=
  ⟨rfl, rfl⟩

/-- C8: for every input triple, `flip_calculate_ppd` performs no validation
and returns exactly the value of the Engine's underlying PPD computation;
its type signals no error. -/
theorem flip_calculate_ppd_forwards {F σ : Type} (E : Engine F)
    (v rx mw : F) (s : σ) :
    (flip_calculate_ppd E v rx mw s).1 = E.calculatePPD v rx mw :=
  rfl

/-- C9: `flip_evaluate` never mutates the caller's reference and test image
buffers — their contents after the call equal their contents before. -/
theorem flip_evaluate_preserves_inputs {F : Type} [Zero F] (E : Engine F)
    (w h u : Int) (ps : Option (FlipParameters F)) (a c : Int)
    (mem : CallerMemory F) :
    (flip_evaluate E w h u ps a c mem).reference = mem.reference ∧
    (flip_evaluate E w h u ps a c mem).test = mem.test :=
  ⟨rfl, rfl⟩

/-- Two C ints agreeing on being zero or non-zero have the same `!= 0`
truth value. -/
theorem bne_zero_congr {u u' : Int} (h : u ≠ 0 ↔ u' ≠ 0) :
    (u != 0) = (u' != 0) := by
  by_cases h0 : u = 0
  · have h1 : u' = 0 := by
      by_contra hx
      exact (h.mpr hx) h0
    rw [h0, h1]
  · have e1 : (u != 0) = true := by simp [h0]
    have e2 : (u' != 0) = true := by simp [h.mp h0]
    rw [e1, e2]

/-- C10: the flags `use_hdr`, `apply_magma_map` and `compute_mean_error`
are interpreted purely as zero versus non-zero: any two assignments agreeing
on that produce identical behaviour on otherwise identical inputs. -/
theorem flip_evaluate_flags_zero_nonzero {F : Type} [Zero F] (E : Engine F)
    (w h : Int) (ps : Option (FlipParameters F)) (mem : CallerMemory F)
    (u u' a a' c c' : Int)
    (hu : u ≠ 0 ↔ u' ≠ 0) (ha : a ≠ 0 ↔ a' ≠ 0) (hc : c ≠ 0 ↔ c' ≠ 0) :
    flip_evaluate E w h u ps a c mem = flip_evaluate E w h u' ps a' c' mem := by
  simp only [flip_evaluate, bne_zero_congr hu, bne_zero_congr ha,
    bne_zero_congr hc]

/-- Witness for C10 at concrete flag values (2,3,0) versus (5,7,0). -/
theorem flip_evaluate_flags_zero_nonzero_witness :
    (((2 : Int) ≠ 0 ↔ (5 : Int) ≠ 0) ∧ ((3 : Int) ≠ 0 ↔ (7 : Int) ≠ 0) ∧
      ((0 : Int) ≠ 0 ↔ (0 : Int) ≠ 0)) ∧
    flip_evaluate specEngine 1 1 2 none 3 0
        { reference := [0], test := [0], mean_slot := some 5,
          error_slot := none }
      = flip_evaluate specEngine 1 1 5 none 7 0
          { reference := [0], test := [0], mean_slot := some 5,
            error_slot := none } :=
  ⟨⟨by decide, by decide, Iff.rfl⟩,
   flip_evaluate_flags_zero_nonzero specEngine 1 1 none
     { reference := [0], test := [0], mean_slot := some 5, error_slot := none }
     2 5 3 7 0 0 (by decide) (by decide) Iff.rfl⟩
